import Mathlib

/-!
Shallow embedding of the AUTONEX AIOps backend (src/backend/server.py)
for checking its natural-language specification.

Conventions of the embedding:
* machine floats become `ℚ` (the code only compares and averages metric
  values; no float-rounding behaviour is relied upon by the claims);
* timestamps become `ℕ`, passed explicitly as a `now` argument where the
  code calls `datetime.now`;
* the MongoDB collections become Lean lists of records; `update_one`
  updates the first matching document (`updateFirst`);
* HTTP error responses become `Except ℕ _` values carrying the status code;
* the external isolation-forest model and the external JSON parser are
  abstracted as function parameters (`ModelOracle`, `jsonLoads`), since
  their code is outside this repository; `none` models a raised exception.
-/

namespace Autonex

/-! ## Data model (server.py, Models section) -/

/-- Embeds `SystemMetric` (server.py lines 42-50); the timestamp is dropped
because no claim depends on it. -/
structure SystemMetric where
  service : String
  cpu : ℚ
  memory : ℚ
  latency : ℚ
  error_rate : ℚ
  requests_per_sec : ℚ
deriving DecidableEq

/-- Embeds `Incident` (server.py lines 64-76), restricted to the fields the
claims mention. -/
structure Incident where
  id : String
  title : String
  status : String
  severity : String
  service : String
  resolved_at : Option ℕ := none
deriving DecidableEq

/-- Embeds `Action` (server.py lines 78-89). The generated uuid and
creation timestamp are irrelevant to the claims; `id` is kept as the lookup
key. -/
structure Action where
  id : String
  incident_id : String
  action : String
  description : String
  risk_level : String
  impact : String
  status : String
  approved_by : Option String := none
  executed_at : Option ℕ := none
deriving DecidableEq

/-- One recommendation object, the element shape the code reads back out of
the parsed JSON array (keys `action, description, risk_level, impact`). -/
structure Recommendation where
  action : String
  description : String
  risk_level : String
  impact : String
deriving DecidableEq

/-! ## MongoDB update_one -/

/-- `update_one`: apply `f` to the first element satisfying `p`, leaving
everything else unchanged. -/
def updateFirst (p : α → Bool) (f : α → α) : List α → List α
  | [] => []
  | x :: xs => if p x then f x :: xs else x :: updateFirst p f xs

/-! ## Anomaly detection engine (server.py lines 102-135) -/

/-- State of `AnomalyDetector`. The fitted `IsolationForest` is external
code; the `model` field records the window it was last fitted on (each
`fit` call fully replaces it). -/
structure AnomalyDetector where
  is_trained : Bool
  baseline_data : List ℚ
  model : List (List ℚ)
deriving DecidableEq

/-- `AnomalyDetector.__init__` (lines 103-110): untrained, empty baseline. -/
def AnomalyDetector.init : AnomalyDetector :=
  { is_trained := false, baseline_data := [], model := [] }

/-- `np.mean(metrics_data, axis=0)`: per-dimension mean of a list of rows
(meaningful when all rows share the head row's length). -/
def colMean (data : List (List ℚ)) : List ℚ :=
  (List.range (data.headD []).length).map fun i =>
    (data.map fun row => row.getD i 0).sum / (data.length : ℚ)

/-- `AnomalyDetector.train` (lines 112-119): fit and recompute the baseline
only when `len(metrics_data) > 20`; otherwise leave the state untouched. -/
def AnomalyDetector.train (d : AnomalyDetector) (metrics_data : List (List ℚ)) :
    AnomalyDetector :=
  if metrics_data.length > 20 then
    { model := metrics_data, is_trained := true, baseline_data := colMean metrics_data }
  else d

/-- Raw outputs of the fitted model on one sample, abstracting
`model.predict([metric])[0]` and the sigmoid-transformed
`1 / (1 + exp(score))` confidence (lines 127-130): `some (prediction,
confidence)` on success, `none` when the library call raises. -/
def ModelOracle : Type := List ℚ → Option (Int × ℚ)

/-- `AnomalyDetector.detect` (lines 121-135): neutral default `(false, 0.5)`
when untrained or when scoring raises; otherwise anomalous iff the model
predicts `-1`, with the transformed confidence. -/
def AnomalyDetector.detect (d : AnomalyDetector) (oracle : ModelOracle)
    (metric : List ℚ) : Bool × ℚ :=
  if d.is_trained then
    match oracle metric with
    | none => (false, 1/2)
    | some (prediction, confidence) => (prediction == -1, confidence)
  else (false, 1/2)

/-! ## Detection pass helpers (server.py lines 294-360) -/

/-- The fixed metric dimension names (line 330). -/
def metric_names : List String :=
  ["cpu", "memory", "latency", "error_rate", "requests_per_sec"]

/-- Feature vector of a metric in the fixed order (lines 311-317). -/
def featureVec (m : SystemMetric) : List ℚ :=
  [m.cpu, m.memory, m.latency, m.error_rate, m.requests_per_sec]

/-- `np.argmax`: index of the first occurrence of the maximum (0 on the
empty list, which the code never hits since `deviations` has length 5). -/
def argmax : List ℚ → ℕ
  | [] => 0
  | [_] => 0
  | x :: y :: xs =>
    if x < (y :: xs).getD (argmax (y :: xs)) 0 then argmax (y :: xs) + 1 else 0

/-- The per-dimension relative deviations (lines 325-328):
`abs(features[i] - baseline[i]) / (baseline[i] + 1) if i < len(baseline)
else 0` for each `i < len(features)`. -/
def deviationsOf (baseline features : List ℚ) : List ℚ :=
  (List.range features.length).map fun i =>
    if i < baseline.length then
      |features.getD i 0 - baseline.getD i 0| / (baseline.getD i 0 + 1)
    else 0

/-- Attribution step of `detect_anomalies` (lines 324-344): pick the stored
baseline when non-empty (Python truthiness) else the feature vector itself,
take the first index of maximum deviation, and report that dimension's
name, raw value, and baseline. -/
def attribution (baseline_data features : List ℚ) : String × ℚ × ℚ :=
  let baseline := if baseline_data = [] then features else baseline_data
  let deviations := deviationsOf baseline features
  let max_deviation_idx := argmax deviations
  (metric_names.getD max_deviation_idx "",
   features.getD max_deviation_idx 0,
   if max_deviation_idx < baseline.length then baseline.getD max_deviation_idx 0
   else features.getD max_deviation_idx 0)

/-- Severity policy of `detect_anomalies` (line 334):
`"critical" if confidence > 0.8 else "high" if confidence > 0.6 else
"medium"`. -/
def severityOfConfidence (confidence : ℚ) : String :=
  if confidence > 8/10 then "critical"
  else if confidence > 6/10 then "high"
  else "medium"

/-! ## Retrain loop body (server.py lines 217-234) -/

/-- One cycle of `train_anomaly_detector`: take the most recent window of at
most 200 stored metrics (`metrics`, newest first, models the sorted
collection) and retrain only when `len(metrics) > 50`. -/
def train_anomaly_detector_cycle (d : AnomalyDetector)
    (metrics : List SystemMetric) : AnomalyDetector :=
  let window := metrics.take 200
  if window.length > 50 then d.train (window.map featureVec) else d

/-! ## Incident updates (server.py lines 422-443) -/

/-- A JSON value supplied for the `resolved_at` key of a patch: `vnull` is
any falsy value, `vtime t` any truthy one. -/
inductive PatchVal
  | vnull
  | vtime (t : ℕ)
deriving DecidableEq

/-- Python truthiness of a `PatchVal`. -/
def PatchVal.truthy : PatchVal → Bool
  | vnull => false
  | vtime _ => true

/-- The caller-supplied partial-update map of `update_incident`, restricted
to the two fields the claims concern; `none` means the key is absent. -/
structure IncidentPatch where
  status : Option String := none
  resolved_at : Option PatchVal := none
deriving DecidableEq

/-- Effect of `update_incident`'s body on one matched document: first the
preprocessing `if resolved_at in updates and updates[resolved_at]:
updates[resolved_at] = now` (line 426-427), then MongoDB `$set` of every
present key. -/
def applyPatch (inc : Incident) (p : IncidentPatch) (now : ℕ) : Incident :=
  let p' :=
    match p.resolved_at with
    | some v => if v.truthy then { p with resolved_at := some (PatchVal.vtime now) } else p
    | none => p
  { inc with
    status := p'.status.getD inc.status,
    resolved_at :=
      match p'.resolved_at with
      | none => inc.resolved_at
      | some PatchVal.vnull => none
      | some (PatchVal.vtime t) => some t }

/-- `update_incident` endpoint (lines 422-443): patch the first matching
incident, 404 when no incident has the id. -/
def update_incident (incidents : List Incident) (incident_id : String)
    (p : IncidentPatch) (now : ℕ) : List Incident × Except ℕ Unit :=
  if incidents.any fun i => i.id == incident_id then
    (updateFirst (fun i => i.id == incident_id) (fun i => applyPatch i p now) incidents,
     Except.ok ())
  else (incidents, Except.error 404)

/-! ## Recommendation generation (server.py lines 518-618) -/

/-- The documented three-item fallback list (lines 560-579), substituted
when no bracketed span is found in the narrative response. -/
def fallback_recommendations : List Recommendation :=
  [{ action := "Scale Resources",
     description := "Increase CPU and memory allocation for the affected service",
     risk_level := "low",
     impact := "Improved performance and reduced error rates" },
   { action := "Restart Service",
     description := "Perform a rolling restart of the service instances",
     risk_level := "medium",
     impact := "Clears memory leaks and resets connections" },
   { action := "Review Recent Changes",
     description := "Investigate and potentially rollback recent deployments",
     risk_level := "low",
     impact := "Identifies root cause if related to recent changes" }]

/-- The single-item list assigned by the bare `except:` handler
(lines 580-588), reached when parsing the extracted span raises. -/
def except_fallback : List Recommendation :=
  [{ action := "Scale Resources",
     description := "Increase CPU and memory allocation",
     risk_level := "low",
     impact := "Improved performance" }]

/-- Python `str.find(c)`: index of the first occurrence, `-1` when absent. -/
def strFind (s : String) (c : Char) : Int :=
  match s.toList.findIdx? (fun x => x == c) with
  | some i => (i : Int)
  | none => -1

/-- Python `str.rfind(c)`: index of the last occurrence, `-1` when absent. -/
def strRfind (s : String) (c : Char) : Int :=
  match s.toList.reverse.findIdx? (fun x => x == c) with
  | some i => ((s.toList.length - 1 - i : ℕ) : Int)
  | none => -1

/-- Python slice `s[a:b]` for `0 ≤ a`. -/
def spanOf (s : String) (a b : Int) : String :=
  String.mk ((s.toList.take b.toNat).drop a.toNat)

/-- Parsing step of `generate_recommendations` (lines 550-588): locate the
first bracket and last close-bracket; when a span exists, hand it to
`json.loads` (abstracted as `jsonLoads`, `none` modelling a raised
exception caught by the bare `except:`); when no span exists, assign the
three-item fallback inside the `try` (no exception raised). -/
def parse_recommendations (jsonLoads : String → Option (List Recommendation))
    (response : String) : List Recommendation :=
  let json_start := strFind response '['
  let json_end := strRfind response ']' + 1
  if json_start ≥ 0 ∧ json_end > json_start then
    match jsonLoads (spanOf response json_start json_end) with
    | some recommendations => recommendations
    | none => except_fallback
  else fallback_recommendations

/-- Action records created from the accepted recommendations
(lines 597-608): one per entry, owned by the incident, `pending`, in list
order. The generated uuid and timestamp are abstracted. -/
def actions_for_recommendations (incident_id : String)
    (recommendations : List Recommendation) : List Action :=
  recommendations.map fun r =>
    { id := "", incident_id := incident_id, action := r.action,
      description := r.description, risk_level := r.risk_level,
      impact := r.impact, status := "pending",
      approved_by := none, executed_at := none }

/-- `generate_recommendations` endpoint (lines 518-618), after the
narrative response has been obtained: parse, then create the actions. -/
def generate_recommendations (jsonLoads : String → Option (List Recommendation))
    (incident_id response : String) : List Recommendation × List Action :=
  let recommendations := parse_recommendations jsonLoads response
  (recommendations, actions_for_recommendations incident_id recommendations)

/-! ## Action decisions (server.py lines 638-680) -/

/-- `approve_action` endpoint (lines 638-660): unconditionally `$set`
status, approved_by and executed_at on the first matching action; 404 when
no action has the id. -/
def approve_action (actions : List Action) (action_id approver : String)
    (now : ℕ) : List Action × Except ℕ Unit :=
  if actions.any fun a => a.id == action_id then
    (updateFirst (fun a => a.id == action_id)
      (fun a => { a with status := "approved", approved_by := some approver,
                         executed_at := some now }) actions,
     Except.ok ())
  else (actions, Except.error 404)

/-- `reject_action` endpoint (lines 662-680): unconditionally `$set` only
the status on the first matching action; 404 when no action has the id. -/
def reject_action (actions : List Action) (action_id : String) :
    List Action × Except ℕ Unit :=
  if actions.any fun a => a.id == action_id then
    (updateFirst (fun a => a.id == action_id)
      (fun a => { a with status := "rejected" }) actions,
     Except.ok ())
  else (actions, Except.error 404)

/-! ## Demo failure injection (server.py lines 142-198, 684-695) -/

/-- State of `DataSimulator` (lines 145-149). -/
structure DataSimulator where
  services : List String
  failure_mode : Bool
  failure_service : Option String
  failure_start : Option ℕ
deriving DecidableEq

/-- `DataSimulator.__init__`: the fixed monitored-service set, no failure. -/
def DataSimulator.init : DataSimulator :=
  { services := ["api-gateway", "auth-service", "database", "cache", "worker"],
    failure_mode := false, failure_service := none, failure_start := none }

/-- `DataSimulator.inject_failure` (lines 183-188). -/
def DataSimulator.inject_failure (s : DataSimulator) (service : String)
    (now : ℕ) : DataSimulator :=
  { s with failure_mode := true, failure_service := some service,
           failure_start := some now }

/-- `/demo/inject-failure` endpoint (lines 684-695): 400 and no state change
when the service is not in the monitored set, otherwise activate failure
mode for it. -/
def inject_failure_endpoint (s : DataSimulator) (service : String) (now : ℕ) :
    DataSimulator × Except ℕ String :=
  if service ∈ s.services then
    (s.inject_failure service now, Except.ok ("Failure injected into " ++ service))
  else (s, Except.error 400)

/-! ## Dashboard statistics (server.py lines 717-770) -/

/-- `active_incidents` of `get_dashboard_stats` (line 722):
`count_documents ( status = open )`. -/
def dashboard_active_incidents (incidents : List Incident) : ℕ :=
  incidents.countP fun i => i.status == "open"

/-- `total_incidents` of `get_dashboard_stats` (line 723):
`count_documents ( )`. -/
def dashboard_total_incidents (incidents : List Incident) : ℕ :=
  incidents.length

/-! ## Concrete records used by counterexamples and witnesses -/

/-- A sample stored metric. -/
def sampleMetric : SystemMetric :=
  { service := "api-gateway", cpu := 30, memory := 40, latency := 100,
    error_rate := 1, requests_per_sec := 300 }

/-- An action that has already been approved. -/
def approvedAction : Action :=
  { id := "a1", incident_id := "i1", action := "Scale Resources",
    description := "Increase CPU and memory allocation", risk_level := "low",
    impact := "Improved performance", status := "approved",
    approved_by := some "alice", executed_at := some 5 }

/-- An open incident with no resolution stamp. -/
def openIncident : Incident :=
  { id := "i1", title := "Test Performance Issue", status := "open",
    severity := "high", service := "api-gateway", resolved_at := none }

/-! ## Helper lemmas -/

/-- `update_one` on a store whose first matching document is `a`. -/
theorem updateFirst_append (p : α → Bool) (f : α → α) (pre post : List α)
    (a : α) (hpre : ∀ b ∈ pre, p b = false) (ha : p a = true) :
    updateFirst p f (pre ++ a :: post) = pre ++ f a :: post := by
  induction pre with
  | nil => simp [updateFirst, ha]
  | cons x xs ih =>
    have hx : p x = false := hpre x (List.mem_cons_self x xs)
    simp only [List.cons_append, updateFirst, hx, Bool.false_eq_true, if_false]
    exact congrArg (List.cons x) (ih (fun b hb => hpre b (List.mem_cons_of_mem x hb)))

/-- A store containing a matching document matches the id query. -/
theorem any_append_cons (p : α → Bool) (pre post : List α) (a : α)
    (ha : p a = true) : (pre ++ a :: post).any p = true := by
  simp [ha]

/-- Every created action is owned by the incident and pending. -/
theorem actions_for_recommendations_pending (incident_id : String)
    (recommendations : List Recommendation) :
    ∀ a ∈ actions_for_recommendations incident_id recommendations,
      a.incident_id = incident_id ∧ a.status = "pending" := by
  intro a ha
  simp only [actions_for_recommendations, List.mem_map] at ha
  obtain ⟨r, _, rfl⟩ := ha
  exact ⟨rfl, rfl⟩

/-- One action per recommendation. -/
theorem actions_for_recommendations_length (incident_id : String)
    (recommendations : List Recommendation) :
    (actions_for_recommendations incident_id recommendations).length =
      recommendations.length := by
  simp [actions_for_recommendations]

/-- The created actions carry the recommendations' labels in order. -/
theorem actions_for_recommendations_order (incident_id : String)
    (recommendations : List Recommendation) :
    (actions_for_recommendations incident_id recommendations).map Action.action =
      recommendations.map Recommendation.action := by
  simp only [actions_for_recommendations, List.map_map]
  rfl

/-- The first-max index is within bounds on a non-empty list. -/
theorem argmax_lt_length : ∀ l : List ℚ, l ≠ [] → argmax l < l.length
  | [], h => absurd rfl h
  | [_], _ => by simp [argmax]
  | x :: y :: xs, _ => by
    simp only [argmax]
    split
    · have h := argmax_lt_length (y :: xs) (by simp)
      simpa [List.length_cons] using Nat.succ_lt_succ h
    · simp

/-- Every entry is bounded by the entry at the first-max index. -/
theorem argmax_le : ∀ (l : List ℚ) (j : ℕ), j < l.length →
    l.getD j 0 ≤ l.getD (argmax l) 0
  | [], j, hj => by simp at hj
  | [x], j, hj => by
    have hj0 : j = 0 := by simpa using hj
    simp [argmax, hj0]
  | x :: y :: xs, j, hj => by
    simp only [argmax]
    split
    case isTrue h =>
      cases j with
      | zero =>
        simpa [List.getD_cons_zero, List.getD_cons_succ] using le_of_lt h
      | succ k =>
        have hk : k < (y :: xs).length := by simpa using hj
        simpa [List.getD_cons_succ] using argmax_le (y :: xs) k hk
    case isFalse h =>
      cases j with
      | zero => simp
      | succ k =>
        have hk : k < (y :: xs).length := by simpa using hj
        have h1 := argmax_le (y :: xs) k hk
        have h2 : (y :: xs).getD (argmax (y :: xs)) 0 ≤ x := not_lt.mp h
        simpa [List.getD_cons_succ, List.getD_cons_zero] using h1.trans h2

/-- Entries strictly before the first-max index are strictly below it: the
maximum is attained first at that index. -/
theorem argmax_first : ∀ (l : List ℚ) (j : ℕ), j < argmax l →
    l.getD j 0 < l.getD (argmax l) 0
  | [], j, hj => by simp [argmax] at hj
  | [_], j, hj => by simp [argmax] at hj
  | x :: y :: xs, j, hj => by
    by_cases h : x < (y :: xs).getD (argmax (y :: xs)) 0
    · simp only [argmax, if_pos h] at hj ⊢
      cases j with
      | zero => simpa [List.getD_cons_zero, List.getD_cons_succ] using h
      | succ k =>
        have hk : k < argmax (y :: xs) := by omega
        simpa [List.getD_cons_succ] using argmax_first (y :: xs) k hk
    · simp only [argmax, if_neg h] at hj
      exact absurd hj (Nat.not_lt_zero j)

/-- On an all-zero list the first-max index is the first index. -/
theorem argmax_of_all_zero : ∀ l : List ℚ, (∀ x ∈ l, x = 0) → argmax l = 0
  | [], _ => rfl
  | [_], _ => rfl
  | x :: y :: xs, h => by
    have hx : x = 0 := h x (List.mem_cons_self x (y :: xs))
    have hy : y = 0 := h y (List.mem_cons_of_mem x (List.mem_cons_self y xs))
    have hrec : argmax (y :: xs) = 0 :=
      argmax_of_all_zero (y :: xs) (fun z hz => h z (List.mem_cons_of_mem x hz))
    simp only [argmax, hrec]
    rw [if_neg]
    rw [List.getD_cons_zero, hx, hy]
    exact lt_irrefl 0

/-- The deviation list has one entry per feature dimension. -/
theorem deviationsOf_length (baseline features : List ℚ) :
    (deviationsOf baseline features).length = features.length := by
  simp [deviationsOf]

/-- With the feature vector as its own baseline every deviation is zero. -/
theorem deviationsOf_self (f : List ℚ) :
    deviationsOf f f = List.replicate f.length 0 := by
  apply List.eq_replicate_iff.mpr
  refine ⟨deviationsOf_length f f, ?_⟩
  intro x hx
  simp only [deviationsOf, List.mem_map, List.mem_range] at hx
  obtain ⟨i, hi, rfl⟩ := hx
  split <;> simp

/-- `train` with at most 20 samples leaves the detector untouched. -/
theorem train_eq_of_le (d : AnomalyDetector) (data : List (List ℚ))
    (h : data.length ≤ 20) : d.train data = d := by
  simp [AnomalyDetector.train, Nat.not_lt.mpr h]

/-- `train` with more than 20 samples replaces model and baseline and marks
the detector trained. -/
theorem train_eq_of_gt (d : AnomalyDetector) (data : List (List ℚ))
    (h : 20 < data.length) :
    d.train data =
      { is_trained := true, baseline_data := colMean data, model := data } := by
  simp [AnomalyDetector.train, h]

/-! ## Claim theorems -/

/-- Claim C4, amended: `train` is a no-op exactly when at most 20 samples are
supplied (in particular at exactly 20, contrary to the claim's boundary);
with more than 20 samples it fits the model on the window, recomputes the
baseline vector as the per-dimension mean of the window, and marks the
engine trained. -/
theorem train_threshold (d : AnomalyDetector) (data : List (List ℚ)) :
    (data.length ≤ 20 → d.train data = d) ∧
    (20 < data.length →
      d.train data =
        { is_trained := true, baseline_data := colMean data, model := data }) :=
  ⟨fun h => train_eq_of_le d data h, fun h => train_eq_of_gt d data h⟩

/-- Boundary counterexample to claim C4 as stated: a window of exactly 20
samples leaves the engine in its prior untrained state, although the claim
requires it to fit the model and mark the engine trained. -/
theorem train_at_exactly_20_noop :
    (List.replicate 20 ([30, 40, 100, 1, 300] : List ℚ)).length = 20 ∧
    AnomalyDetector.init.train (List.replicate 20 ([30, 40, 100, 1, 300] : List ℚ)) =
      AnomalyDetector.init := by
  exact ⟨by simp, train_eq_of_le _ _ (by simp)⟩

/-- Witness for the C4 theorem at concrete windows of 20 and 21 samples. -/
theorem train_threshold_witness :
    AnomalyDetector.init.train (List.replicate 20 ([1, 2, 3, 4, 5] : List ℚ)) =
      AnomalyDetector.init ∧
    (AnomalyDetector.init.train (List.replicate 21 ([1, 2, 3, 4, 5] : List ℚ))).is_trained =
      true :=
  ⟨(train_threshold _ _).1 (by simp),
   by rw [(train_threshold _ _).2 (by simp)]⟩

/-- Claim C5: severity of a generated anomaly is a pure function of
confidence with strictly-greater comparisons — above 0.8 critical, above 0.6
and up to 0.8 high, otherwise medium; exactly 0.8 gives high and exactly 0.6
gives medium. -/
theorem severity_thresholds :
    (∀ c : ℚ, 8/10 < c → severityOfConfidence c = "critical") ∧
    (∀ c : ℚ, 6/10 < c → c ≤ 8/10 → severityOfConfidence c = "high") ∧
    (∀ c : ℚ, c ≤ 6/10 → severityOfConfidence c = "medium") ∧
    severityOfConfidence (8/10) = "high" ∧
    severityOfConfidence (6/10) = "medium" := by
  refine ⟨fun c h => ?_, fun c h1 h2 => ?_, fun c h => ?_,
    by norm_num [severityOfConfidence], by norm_num [severityOfConfidence]⟩
  · rw [severityOfConfidence, if_pos h]
  · rw [severityOfConfidence, if_neg (not_lt.mpr h2), if_pos h1]
  · rw [severityOfConfidence, if_neg (not_lt.mpr (h.trans (by norm_num))),
      if_neg (not_lt.mpr h)]

/-- Witness for the C5 theorem at the spec's sample confidences. -/
theorem severity_thresholds_witness :
    severityOfConfidence (85/100) = "critical" ∧
    severityOfConfidence (7/10) = "high" ∧
    severityOfConfidence (4/10) = "medium" :=
  ⟨severity_thresholds.1 (85/100) (by norm_num),
   severity_thresholds.2.1 (7/10) (by norm_num) (by norm_num),
   severity_thresholds.2.2.1 (4/10) (by norm_num)⟩

/-- Claim C6: `detect` returns exactly `(false, 0.5)` whenever the engine is
untrained, and likewise whenever the model scoring fails (the oracle models
a raised library exception as `none`); being a total Lean function it never
raises in either case. -/
theorem detect_neutral_default (d : AnomalyDetector) (oracle : ModelOracle)
    (metric : List ℚ)
    (h : d.is_trained = false ∨ oracle metric = none) :
    d.detect oracle metric = (false, 1/2) := by
  rcases h with h | h <;>
    cases ht : d.is_trained <;>
      simp_all [AnomalyDetector.detect]

/-- Witness for the C6 theorem: the fresh detector stays neutral even when
the oracle would report an anomaly. -/
theorem detect_neutral_default_witness :
    AnomalyDetector.init.detect (fun _ => some (-1, 9/10)) [1, 2, 3, 4, 5] =
      (false, 1/2) :=
  detect_neutral_default _ _ _ (Or.inl rfl)

/-- Claim C8, amended: each retrain cycle uses a window of at most 200 recent
samples; with more than 50 samples in the window (contrary to the claim's
boundary of at least 50) it retrains the engine on the assembled feature
matrix, leaving it trained; with 50 or fewer samples — in particular exactly
50 — the cycle is a strict no-op on the engine. -/
theorem retrain_cycle_threshold (d : AnomalyDetector)
    (metrics : List SystemMetric) :
    (metrics.take 200).length ≤ 200 ∧
    ((metrics.take 200).length ≤ 50 → train_anomaly_detector_cycle d metrics = d) ∧
    (50 < (metrics.take 200).length →
      train_anomaly_detector_cycle d metrics =
        d.train ((metrics.take 200).map featureVec) ∧
      (train_anomaly_detector_cycle d metrics).is_trained = true) := by
  refine ⟨?_, fun h => ?_, fun h => ?_⟩
  · exact List.length_take_le 200 metrics
  · simp only [train_anomaly_detector_cycle]
    rw [if_neg (Nat.not_lt.mpr h)]
  · have h1 : train_anomaly_detector_cycle d metrics =
        d.train ((metrics.take 200).map featureVec) := by
      simp only [train_anomaly_detector_cycle]
      rw [if_pos h]
    have h2 : 20 < ((metrics.take 200).map featureVec).length := by
      rw [List.length_map]; omega
    exact ⟨h1, by rw [h1, train_eq_of_gt _ _ h2]⟩

/-- Boundary counterexample to claim C8 as stated: with exactly 50 stored
samples the cycle leaves the engine untouched, although the claim requires
it to retrain. -/
theorem retrain_at_exactly_50_noop :
    (List.replicate 50 sampleMetric).length = 50 ∧
    train_anomaly_detector_cycle AnomalyDetector.init
      (List.replicate 50 sampleMetric) = AnomalyDetector.init := by
  refine ⟨by simp, ?_⟩
  have h : ((List.replicate 50 sampleMetric).take 200).length ≤ 50 := by simp
  simp [train_anomaly_detector_cycle, Nat.not_lt.mpr h]

/-- Witness for the C8 theorem at concrete stores of 50 and 51 samples. -/
theorem retrain_cycle_threshold_witness :
    train_anomaly_detector_cycle AnomalyDetector.init
      (List.replicate 50 sampleMetric) = AnomalyDetector.init ∧
    (train_anomaly_detector_cycle AnomalyDetector.init
      (List.replicate 51 sampleMetric)).is_trained = true :=
  ⟨(retrain_cycle_threshold _ _).2.1 (by simp),
   ((retrain_cycle_threshold _ _).2.2 (by simp)).2⟩

/-- Claim C9: the demo inject-failure endpoint answers 400 and leaves the
simulator unchanged for every service outside the monitored set, and for
every member of the set activates failure mode for exactly that service. -/
theorem inject_failure_endpoint_spec (s : DataSimulator) (service : String)
    (now : ℕ) :
    (service ∉ s.services →
      inject_failure_endpoint s service now = (s, Except.error 400)) ∧
    (service ∈ s.services →
      inject_failure_endpoint s service now =
        ({ s with failure_mode := true, failure_service := some service,
                  failure_start := some now },
         Except.ok ("Failure injected into " ++ service))) := by
  constructor
  · intro h; simp [inject_failure_endpoint, h]
  · intro h; simp [inject_failure_endpoint, h, DataSimulator.inject_failure]

/-- Witness for the C9 theorem: an unknown service is refused with the state
kept, and a monitored one flips the failure state. -/
theorem inject_failure_endpoint_witness :
    inject_failure_endpoint DataSimulator.init "unknown-svc" 3 =
      (DataSimulator.init, Except.error 400) ∧
    (inject_failure_endpoint DataSimulator.init "database" 3).1.failure_service =
      some "database" :=
  ⟨(inject_failure_endpoint_spec _ _ _).1 (by decide),
   by rw [(inject_failure_endpoint_spec _ _ _).2 (by decide)]⟩

/-- Claim C10: the dashboard's active_incidents counts only incidents whose
status is exactly open — an investigating incident contributes to
total_incidents but not to active_incidents. -/
theorem dashboard_active_counts_only_open (incidents : List Incident)
    (inc : Incident) (h : inc.status = "investigating") :
    dashboard_total_incidents (inc :: incidents) =
      dashboard_total_incidents incidents + 1 ∧
    dashboard_active_incidents (inc :: incidents) =
      dashboard_active_incidents incidents := by
  constructor
  · simp [dashboard_total_incidents]
  · simp [dashboard_active_incidents, List.countP_cons, h]

/-- Witness for the C10 theorem at a one-incident store. -/
theorem dashboard_active_counts_only_open_witness :
    dashboard_total_incidents [{ openIncident with status := "investigating" }] =
      dashboard_total_incidents [] + 1 ∧
    dashboard_active_incidents [{ openIncident with status := "investigating" }] =
      dashboard_active_incidents [] :=
  dashboard_active_counts_only_open [] _ rfl

/-- Claim C1, amended: approving stamps status, approved_by and a non-null
executed_at on the first matching action unconditionally, regardless of its
prior status; but terminal states are not enforced — rejecting sets status
to rejected unconditionally, also on an already-approved action, leaving its
approved_by and executed_at stamps in place (so approved_by and executed_at
can be non-null while status is rejected). -/
theorem action_decisions_unconditional (pre post : List Action) (a : Action)
    (action_id approver : String) (now : ℕ)
    (hid : (a.id == action_id) = true)
    (hpre : ∀ b ∈ pre, (b.id == action_id) = false) :
    approve_action (pre ++ a :: post) action_id approver now =
      (pre ++ { a with status := "approved", approved_by := some approver,
                       executed_at := some now } :: post, Except.ok ()) ∧
    reject_action (pre ++ a :: post) action_id =
      (pre ++ { a with status := "rejected" } :: post, Except.ok ()) := by
  have hany : ((pre ++ a :: post).any fun b => b.id == action_id) = true :=
    any_append_cons _ pre post a hid
  constructor
  · simp only [approve_action]
    rw [if_pos hany, updateFirst_append _ _ _ _ _ hpre hid]
  · simp only [reject_action]
    rw [if_pos hany, updateFirst_append _ _ _ _ _ hpre hid]

/-- Counterexample to claim C1 as stated: rejecting an already-approved
action changes its status to rejected while approved_by and executed_at stay
stamped, so the approved state is not terminal and approved_by is non-null
with status rejected. -/
theorem reject_overrides_approved :
    approvedAction.status = "approved" ∧
    (reject_action [approvedAction] "a1").1 =
      [{ approvedAction with status := "rejected" }] ∧
    ({ approvedAction with status := "rejected" }).approved_by = some "alice" ∧
    ({ approvedAction with status := "rejected" }).executed_at = some 5 :=
  ⟨rfl, rfl, rfl, rfl⟩

/-- Witness for the C1 theorem on a one-action store holding an approved
action. -/
theorem action_decisions_unconditional_witness :
    approve_action [approvedAction] "a1" "bob" 9 =
      ([{ approvedAction with status := "approved", approved_by := some "bob",
                              executed_at := some 9 }], Except.ok ()) ∧
    reject_action [approvedAction] "a1" =
      ([{ approvedAction with status := "rejected" }], Except.ok ()) := by
  have h := action_decisions_unconditional [] [] approvedAction "a1" "bob" 9
    (by decide) (by simp)
  simpa using h

/-- Claim C2, amended: resolved_at is governed by the caller's patch alone,
independently of status — a patch without the resolved_at key leaves
resolved_at unchanged (so setting status to resolved does not stamp it), a
patch with a truthy resolved_at value overwrites it with the current time
even when already set (the last resolution wins, not the first), and a falsy
resolved_at value clears it. -/
theorem incident_resolution_behavior (pre post : List Incident) (inc : Incident)
    (incident_id : String) (p : IncidentPatch) (now : ℕ)
    (hid : (inc.id == incident_id) = true)
    (hpre : ∀ b ∈ pre, (b.id == incident_id) = false) :
    update_incident (pre ++ inc :: post) incident_id p now =
      (pre ++ applyPatch inc p now :: post, Except.ok ()) ∧
    (p.resolved_at = none →
      (applyPatch inc p now).resolved_at = inc.resolved_at) ∧
    (∀ t, p.resolved_at = some (PatchVal.vtime t) →
      (applyPatch inc p now).resolved_at = some now) ∧
    (p.resolved_at = some PatchVal.vnull →
      (applyPatch inc p now).resolved_at = none) := by
  have hany : ((pre ++ inc :: post).any fun i => i.id == incident_id) = true :=
    any_append_cons _ pre post inc hid
  refine ⟨?_, fun h => ?_, fun t h => ?_, fun h => ?_⟩
  · simp only [update_incident]
    rw [if_pos hany, updateFirst_append _ _ _ _ _ hpre hid]
  · simp [applyPatch, h]
  · simp [applyPatch, h, PatchVal.truthy]
  · simp [applyPatch, h, PatchVal.truthy]

/-- Counterexample to claim C2 as stated: patching status to resolved without
a resolved_at key leaves resolved_at null although the status has
transitioned to resolved, and a second resolution request overwrites the
first stamp (7 becomes 9), so the claimed iff and first-resolution-wins both
fail. -/
theorem resolved_at_independent_of_status :
    (update_incident [openIncident] "i1" { status := some "resolved" } 7).1 =
      [{ openIncident with status := "resolved", resolved_at := none }] ∧
    (update_incident
        (update_incident [openIncident] "i1"
          { resolved_at := some (PatchVal.vtime 1) } 7).1 "i1"
        { resolved_at := some (PatchVal.vtime 1) } 9).1 =
      [{ openIncident with resolved_at := some 9 }] :=
  ⟨rfl, rfl⟩

/-- Witness for the C2 theorem on a one-incident store with a truthy
resolution patch. -/
theorem incident_resolution_behavior_witness :
    update_incident [openIncident] "i1"
        { resolved_at := some (PatchVal.vtime 1) } 7 =
      ([applyPatch openIncident { resolved_at := some (PatchVal.vtime 1) } 7],
       Except.ok ()) ∧
    (applyPatch openIncident
        { resolved_at := some (PatchVal.vtime 1) } 7).resolved_at = some 7 := by
  have h := incident_resolution_behavior [] [] openIncident "i1"
    { resolved_at := some (PatchVal.vtime 1) } 7 (by decide) (by simp)
  exact ⟨by simpa using h.1, h.2.2.1 1 rfl⟩

/-- Claim C3, amended: a narrative response from which no bracketed span can
be extracted yields exactly the documented three-item fallback and exactly
three new pending actions owned by the incident, in the order of the list;
but a bracketed span that fails to parse is caught by the bare except
handler, which substitutes a one-item fallback and persists exactly one
pending action, not three. -/
theorem recommendation_fallbacks
    (jsonLoads : String → Option (List Recommendation))
    (incident_id response : String) :
    (¬ (strFind response '[' ≥ 0 ∧
        strRfind response ']' + 1 > strFind response '[') →
      generate_recommendations jsonLoads incident_id response =
        (fallback_recommendations,
         actions_for_recommendations incident_id fallback_recommendations) ∧
      (generate_recommendations jsonLoads incident_id response).2.length = 3 ∧
      (∀ a ∈ (generate_recommendations jsonLoads incident_id response).2,
        a.incident_id = incident_id ∧ a.status = "pending") ∧
      (generate_recommendations jsonLoads incident_id response).2.map
          Action.action =
        fallback_recommendations.map Recommendation.action) ∧
    ((strFind response '[' ≥ 0 ∧
      strRfind response ']' + 1 > strFind response '[') →
      jsonLoads (spanOf response (strFind response '[')
        (strRfind response ']' + 1)) = none →
      (generate_recommendations jsonLoads incident_id response).1 =
        except_fallback ∧
      (generate_recommendations jsonLoads incident_id response).2.length = 1 ∧
      ∀ a ∈ (generate_recommendations jsonLoads incident_id response).2,
        a.incident_id = incident_id ∧ a.status = "pending") := by
  constructor
  · intro h
    have hp : parse_recommendations jsonLoads response =
        fallback_recommendations := by
      simp only [parse_recommendations]
      rw [if_neg h]
    have hg : generate_recommendations jsonLoads incident_id response =
        (fallback_recommendations,
         actions_for_recommendations incident_id fallback_recommendations) := by
      simp only [generate_recommendations, hp]
    refine ⟨hg, ?_, ?_, ?_⟩
    · rw [hg]; rfl
    · rw [hg]; exact actions_for_recommendations_pending _ _
    · rw [hg]; exact actions_for_recommendations_order _ _
  · intro h hnone
    have hp : parse_recommendations jsonLoads response = except_fallback := by
      simp only [parse_recommendations]
      rw [if_pos h, hnone]
    have hg : generate_recommendations jsonLoads incident_id response =
        (except_fallback,
         actions_for_recommendations incident_id except_fallback) := by
      simp only [generate_recommendations, hp]
    refine ⟨by rw [hg], ?_, ?_⟩
    · rw [hg]; rfl
    · rw [hg]; exact actions_for_recommendations_pending _ _

/-- Counterexample to claim C3 as stated: the response has a bracketed span
that fails to parse (the parser models the raised json.loads exception as
none), and the code persists a single fallback action, not the documented
three-item list. -/
theorem parse_failure_single_fallback :
    (strFind "[oops]" '[' ≥ 0 ∧
     strRfind "[oops]" ']' + 1 > strFind "[oops]" '[') ∧
    generate_recommendations (fun _ => none) "i1" "[oops]" =
      (except_fallback, actions_for_recommendations "i1" except_fallback) ∧
    (generate_recommendations (fun _ => none) "i1" "[oops]").2.length = 1 := by
  refine ⟨by decide, rfl, rfl⟩

/-- Witness for the C3 theorem at a response with no bracketed list. -/
theorem recommendation_fallbacks_witness :
    generate_recommendations (fun _ => none) "i1" "no structured list here" =
      (fallback_recommendations,
       actions_for_recommendations "i1" fallback_recommendations) ∧
    (generate_recommendations (fun _ => none) "i1"
      "no structured list here").2.length = 3 :=
  ⟨((recommendation_fallbacks _ _ _).1 (by decide)).1,
   ((recommendation_fallbacks _ _ _).1 (by decide)).2.1⟩

/-- Claim C7: with a stored baseline, attribution reports the dimension whose
relative deviation is maximal (taking the first such dimension), together
with that dimension's raw value and baseline; with no stored baseline the
feature vector serves as its own baseline, every deviation is zero, and the
first dimension by index order is attributed with its value reported as both
value and baseline. The hypothesis on the baseline entries excludes the
division-by-zero inputs on which the source endpoint raises instead. -/
theorem attribution_max_deviation (baseline_data features : List ℚ)
    (hf : features.length = 5) :
    (baseline_data.length = 5 → (∀ x ∈ baseline_data, x + 1 ≠ 0) →
      argmax (deviationsOf baseline_data features) < 5 ∧
      (∀ j, j < 5 →
        (deviationsOf baseline_data features).getD j 0 ≤
          (deviationsOf baseline_data features).getD
            (argmax (deviationsOf baseline_data features)) 0) ∧
      (∀ j, j < argmax (deviationsOf baseline_data features) →
        (deviationsOf baseline_data features).getD j 0 <
          (deviationsOf baseline_data features).getD
            (argmax (deviationsOf baseline_data features)) 0) ∧
      attribution baseline_data features =
        (metric_names.getD (argmax (deviationsOf baseline_data features)) "",
         features.getD (argmax (deviationsOf baseline_data features)) 0,
         baseline_data.getD (argmax (deviationsOf baseline_data features)) 0)) ∧
    (baseline_data = [] → (∀ x ∈ features, x + 1 ≠ 0) →
      deviationsOf features features = List.replicate 5 0 ∧
      attribution baseline_data features =
        (metric_names.getD 0 "", features.getD 0 0, features.getD 0 0)) := by
  constructor
  · intro hb _
    have hlen : (deviationsOf baseline_data features).length = 5 := by
      rw [deviationsOf_length, hf]
    have hne : deviationsOf baseline_data features ≠ [] := by
      intro h0
      rw [h0] at hlen
      simp at hlen
    have hargmax : argmax (deviationsOf baseline_data features) < 5 := by
      have h := argmax_lt_length _ hne
      omega
    refine ⟨hargmax, fun j hj => ?_, fun j hj => argmax_first _ j hj, ?_⟩
    · exact argmax_le _ j (by omega)
    · have hbne : baseline_data ≠ [] := by
        intro h0
        rw [h0] at hb
        simp at hb
      simp only [attribution]
      rw [if_neg hbne, if_pos (show argmax (deviationsOf baseline_data features) <
        baseline_data.length by omega)]
  · intro hb _
    subst hb
    have hdev : deviationsOf features features = List.replicate 5 0 := by
      rw [deviationsOf_self, hf]
    refine ⟨hdev, ?_⟩
    have ha : argmax (List.replicate 5 (0 : ℚ)) = 0 :=
      argmax_of_all_zero _ (fun x hx => List.eq_of_mem_replicate hx)
    simp only [attribution, if_true, hdev, ha]
    rw [if_pos (show (0 : ℕ) < features.length by omega)]

/-- Witness for the C7 theorem at the spec's attribution example (stored
baseline case) and at an empty baseline (fallback case). -/
theorem attribution_max_deviation_witness :
    argmax (deviationsOf [30, 40, 100, 1, 300]
      ([90, 40, 100, 1, 300] : List ℚ)) < 5 ∧
    attribution [] [90, 40, 100, 1, 300] =
      (metric_names.getD 0 "", ([90, 40, 100, 1, 300] : List ℚ).getD 0 0,
       ([90, 40, 100, 1, 300] : List ℚ).getD 0 0) :=
  ⟨((attribution_max_deviation [30, 40, 100, 1, 300] [90, 40, 100, 1, 300]
      rfl).1 rfl (by intro x hx; fin_cases hx <;> norm_num)).1,
   ((attribution_max_deviation [] [90, 40, 100, 1, 300] rfl).2 rfl
      (by intro x hx; fin_cases hx <;> norm_num)).2⟩

end Autonex
